import Mathlib

/-!
Shallow embedding of `jsoncache/loader.py` (mozilla/jsoncache) and proofs
about its specification.  Times are modelled as integers, Python values
flowing through the cache as the inductive `PyVal`, byte strings as lists,
and the regex / path-normalisation helpers are translated character by
character from the CPython semantics the module relies on.
-/

/-- Python values that can travel through the cache pipeline.  The publisher
thread (`_dequeue_result`, loader.py:283-302) distinguishes values with
`result is False` and `result is None`, so the embedding keeps `none` and
`bool` as separate constructors; other JSON results are represented by the
remaining constructors. -/
inductive PyVal where
  | none : PyVal
  | bool : Bool → PyVal
  | int : Int → PyVal
  | str : String → PyVal
deriving DecidableEq, Repr

/-- `Timer` state (loader.py:144-155): `_start` is the clock reading taken in
`__init__`, `_ttl` the configured TTL and `_ttl_incr` the tick counter. -/
structure Timer where
  start : Int
  ttl : Int
  ttl_incr : Nat
deriving DecidableEq, Repr

/-- `Timer.__init__` (loader.py:145-155): `_ttl_incr = 0`, `_start = clock.time()`. -/
def Timer.fresh (clock_now : Int) (ttl : Int) : Timer :=
  { start := clock_now, ttl := ttl, ttl_incr := 0 }

/-- `Timer.has_expired` (loader.py:157-169): reads `now` from the clock,
computes `future = _start + _ttl_incr * _ttl`, returns `now > future` and
increments `_ttl_incr` exactly when that comparison held.  The returned pair
is (result, updated timer state). -/
def has_expired (t : Timer) (now : Int) : Bool × Timer :=
  let future := t.start + (t.ttl_incr : Int) * t.ttl
  let expired := now > future
  if expired then
    (true, { t with ttl_incr := t.ttl_incr + 1 })
  else
    (false, t)

/-- C2: each `has_expired` call computes `threshold = start + ttl_incr * ttl`;
it returns true and increments the counter by exactly 1 when `now > threshold`
(strictly), otherwise it returns false and leaves the state untouched; `start`
and `ttl` never change, so the counter moves by at most 1 per call. -/
theorem timer_tick_exact (t : Timer) (now : Int) :
    has_expired t now =
      (decide (t.start + (t.ttl_incr : Int) * t.ttl < now),
       { start := t.start, ttl := t.ttl,
         ttl_incr :=
           t.ttl_incr + (if t.start + (t.ttl_incr : Int) * t.ttl < now then 1 else 0) }) := by
  unfold has_expired
  by_cases h : t.start + (t.ttl_incr : Int) * t.ttl < now
  · simp [h, GT.gt]
  · simp [h, GT.gt]

/-- C3 fails on the code: a timer started at `t0 = 0` with `ttl = 10` and a
fresh counter of 0 already reports expiry at `now = 5`, a time strictly
earlier than `t0 + ttl = 10`; the claim predicts false for every call before
`t0 + T`. -/
theorem timer_first_window_cex :
    (5 : Int) < 0 + 10 ∧ (has_expired (Timer.fresh 0 10) 5).1 = true := by decide

/-- C3 amended: with the counter starting at 0 the very first tick fires as
soon as the clock strictly exceeds `t0` (not at `t0 + T`); calls at or before
`t0` return false and leave the state unchanged; after that first tick the
timer targets `t0 + T`: calls at or before `t0 + T` return false, and the
first call strictly after `t0 + T` returns true, advancing the target to
`t0 + 2T`. -/
theorem timer_tick_schedule (t0 T n0 n1 n2 n3 : Int)
    (h0 : n0 ≤ t0) (h1 : t0 < n1) (h2 : n2 ≤ t0 + T) (h3 : t0 + T < n3) :
    has_expired (Timer.fresh t0 T) n0 = (false, Timer.fresh t0 T) ∧
    has_expired (Timer.fresh t0 T) n1 = (true, { start := t0, ttl := T, ttl_incr := 1 }) ∧
    (has_expired { start := t0, ttl := T, ttl_incr := 1 } n2).1 = false ∧
    has_expired { start := t0, ttl := T, ttl_incr := 1 } n3 =
      (true, { start := t0, ttl := T, ttl_incr := 2 }) := by
  refine ⟨?_, ?_, ?_, ?_⟩ <;>
      simp only [has_expired, Timer.fresh, Nat.cast_zero, Nat.cast_one, zero_mul, one_mul,
        add_zero, gt_iff_lt]
  · rw [if_neg (by omega)]
  · rw [if_pos (by omega)]
  · rw [if_neg (by omega)]
  · rw [if_pos (by omega)]

/-- Witness for the amended C3 at `t0 = 0`, `T = 10`, call times 0, 5, 10, 11. -/
theorem timer_tick_schedule_witness :
    has_expired (Timer.fresh 0 10) 0 = (false, Timer.fresh 0 10) ∧
    has_expired (Timer.fresh 0 10) 5 = (true, { start := 0, ttl := 10, ttl_incr := 1 }) ∧
    (has_expired { start := 0, ttl := 10, ttl_incr := 1 } 10).1 = false ∧
    has_expired { start := 0, ttl := 10, ttl_incr := 1 } 11 =
      (true, { start := 0, ttl := 10, ttl_incr := 2 }) :=
  timer_tick_schedule 0 10 0 5 10 11 (by decide) (by decide) (by decide) (by decide)

/-! ## Cache publisher (`_dequeue_result`, loader.py:283-302)

`nonblock_dequeue` (loader.py:172-176) returns the Python constant `False`
when the result queue is empty, so `_dequeue_result` first tests
`result is False` (skip, treat as "no new model"), then `result is None`
(log an error and discard), and only otherwise writes the dequeued value to
`self._cached_result`.  `publish_one` is that per-item processing applied to
an item that really was dequeued from the result queue. -/

def publish_one (cached : PyVal) (result : PyVal) : PyVal :=
  if result = PyVal.bool false then cached
  else if result = PyVal.none then cached
  else result

/-- The slot contents after the publisher consumes the queued results `rs` in
order, starting from slot contents `cached` (`self._cached_result = None` at
construction, loader.py:230). -/
def publish_all (cached : PyVal) (rs : List PyVal) : PyVal :=
  rs.foldl publish_one cached

/-- The slot value the claim predicts: the most recent result of the sequence
that is not `None`, or absent when there is none. -/
def last_non_none (rs : List PyVal) : PyVal :=
  (rs.reverse.find? fun r => decide (r ≠ PyVal.none)).getD PyVal.none

/-- The slot value the code actually keeps: the most recent result that is
neither `None` nor the Boolean `False` (a dequeued `False` is
indistinguishable from `nonblock_dequeue`'s empty-queue sentinel and is
skipped), or absent when there is none. -/
def last_publishable (rs : List PyVal) : PyVal :=
  (rs.reverse.find? fun r => decide (r ≠ PyVal.none ∧ r ≠ PyVal.bool false)).getD PyVal.none

theorem find?_append_or {α : Type} (p : α → Bool) (l₁ l₂ : List α) :
    (l₁ ++ l₂).find? p = ((l₁.find? p).orElse fun _ => l₂.find? p) := by
  induction l₁ with
  | nil => simp
  | cons a l₁ ih =>
    by_cases h : p a = true
    · simp [List.find?, h]
    · simp only [Bool.not_eq_true] at h
      simp [List.find?, h, ih]

theorem publish_all_eq_last_publishable (rs : List PyVal) :
    ∀ cached, publish_all cached rs =
      (rs.reverse.find? fun r => decide (r ≠ PyVal.none ∧ r ≠ PyVal.bool false)).getD cached := by
  induction rs with
  | nil => intro cached; simp [publish_all]
  | cons r rs ih =>
    intro cached
    simp only [publish_all, List.foldl_cons, List.reverse_cons]
    rw [show List.foldl publish_one (publish_one cached r) rs = publish_all (publish_one cached r) rs from rfl]
    rw [ih, find?_append_or]
    cases h : rs.reverse.find? fun x => decide (x ≠ PyVal.none ∧ x ≠ PyVal.bool false) with
    | some x => simp [Option.orElse, h]
    | none =>
      by_cases hf : r = PyVal.bool false
      · simp [Option.orElse, h, hf, List.find?, publish_one]
      · by_cases hn : r = PyVal.none
        · simp [Option.orElse, h, hf, hn, List.find?, publish_one]
        · simp [Option.orElse, h, hf, hn, List.find?, publish_one]

/-- C1 fails on the code: publish the single result `False` (a legitimate
decoded JSON value).  It is not `None`, so the claim says the slot must end
up holding it; but `_dequeue_result` cannot tell a dequeued `False` from the
empty-queue sentinel returned by `nonblock_dequeue` and skips it, leaving the
slot absent. -/
theorem publish_false_cex :
    last_non_none [PyVal.bool false] = PyVal.bool false ∧
    publish_all PyVal.none [PyVal.bool false] = PyVal.none ∧
    PyVal.none ≠ PyVal.bool false := by decide

/-- C1 amended: starting from the absent slot, the slot after any sequence of
published results equals the most recent result that is neither `None` nor
the Boolean `False` (absent when there is none): `None` results are
discarded, `False` results are skipped as indistinguishable from the
empty-queue sentinel, and every other result overwrites the slot.  In
particular the slot, once non-absent, is never reset to absent by a further
published result. -/
theorem publish_all_characterization (rs : List PyVal) (r : PyVal)
    (h : publish_all PyVal.none rs ≠ PyVal.none) :
    publish_all PyVal.none rs = last_publishable rs ∧
    publish_all PyVal.none (rs ++ [r]) ≠ PyVal.none := by
  refine ⟨publish_all_eq_last_publishable rs PyVal.none, ?_⟩
  have hstep : publish_all PyVal.none (rs ++ [r]) =
      publish_one (publish_all PyVal.none rs) r := by
    simp [publish_all, List.foldl_append]
  rw [hstep]
  by_cases hf : r = PyVal.bool false
  · simpa [publish_one, hf] using h
  · by_cases hn : r = PyVal.none
    · simpa [publish_one, hf, hn] using h
    · simp [publish_one, hf, hn]

/-- Witness for the amended C1: after publishing `[42, None, False]` the slot
holds `42` (the most recent publishable result), and appending any further
result — here `None` — leaves it non-absent. -/
theorem publish_all_characterization_witness :
    publish_all PyVal.none [PyVal.int 42, PyVal.none, PyVal.bool false] =
      last_publishable [PyVal.int 42, PyVal.none, PyVal.bool false] ∧
    publish_all PyVal.none ([PyVal.int 42, PyVal.none, PyVal.bool false] ++ [PyVal.none]) ≠
      PyVal.none :=
  publish_all_characterization [PyVal.int 42, PyVal.none, PyVal.bool false] PyVal.none (by decide)

/-! ## Cache handle reads (`get`, loader.py:280-281) -/

/-- The mutable state of a `ThreadedObjectCache` visible to readers: the
cached-result slot (`self._cached_result`). -/
structure CacheState where
  cached_result : PyVal
deriving DecidableEq, Repr

/-- `ThreadedObjectCache.get` (loader.py:280-281): `return self._cached_result`.
A pure total read — it cannot block or raise. -/
def ThreadedObjectCache.get (s : CacheState) : PyVal :=
  s.cached_result

/-- C9: `get` is total and non-blocking — it is a pure projection of the
state, so in every state it immediately returns the slot contents; at
construction the slot is `None` (loader.py:230) so `get` returns the explicit
absent value, and it still does after any run of the publisher in which no
publishable result arrived (e.g. every dequeued result was `None`). -/
theorem get_total_and_absent_before_first_load :
    ThreadedObjectCache.get { cached_result := PyVal.none } = PyVal.none ∧
    (∀ s : CacheState, ThreadedObjectCache.get s = s.cached_result) ∧
    (∀ k : Nat,
      ThreadedObjectCache.get
        { cached_result := publish_all PyVal.none (List.replicate k PyVal.none) } =
        PyVal.none) := by
  refine ⟨rfl, fun s => rfl, ?_⟩
  intro k
  induction k with
  | zero => rfl
  | succ k ih =>
    simpa [List.replicate_succ, publish_all, ThreadedObjectCache.get, publish_one] using ih

/-! ## Loader dispatch (`load_model`, loader.py:304-314) and the worker
(`result_thread`, loader.py:332-360)

`load_model` calls the backend loaders with three positional arguments:
`s3_json_loader(self._bucket, self._path, self._transformer)` and
`gcs_json_loader(self._bucket, self._path, self._transformer)`.  The
signatures in the source are `s3_json_loader(bucket, path,
region_name="us-west-2")` (loader.py:71— 2 required parameters plus 1 with a
default) and `gcs_json_loader(bucket, path)` (loader.py:117 — exactly 2
parameters, no defaults).  CPython binds a call of `g` positional arguments
against a signature with `r` required and `d` defaulted parameters exactly
when `r ≤ g ≤ r + d`, and raises `TypeError` at the call site — before the
callee body runs — otherwise.  Both loader bodies wrap their work in
`try/except Exception` and return `None` on any failure, so a loader that is
entered either returns the decoded (fetched) value or `None`; a `TypeError`
from the call itself is raised in the caller's frame and is not caught
anywhere in `result_thread`. -/

/-- A Python exception escaping into `result_thread`. -/
inductive PyExn where
  | typeError : PyExn
deriving DecidableEq, Repr

/-- CPython positional-argument binding: `required ≤ given ≤ required + defaulted`. -/
def call_binds (required defaulted given : Nat) : Bool :=
  required ≤ given && given ≤ required + defaulted

/-- `s3_json_loader` has parameters `(bucket, path, region_name="us-west-2")`. -/
def s3_required : Nat := 2
def s3_defaulted : Nat := 1

/-- `gcs_json_loader` has parameters `(bucket, path)`. -/
def gcs_required : Nat := 2
def gcs_defaulted : Nat := 0

/-- `load_model` passes `(self._bucket, self._path, self._transformer)`. -/
def load_model_args : Nat := 3

/-- `ThreadedObjectCache.load_model` (loader.py:304-314), with the network
fetch abstracted: `s3_fetch` / `gcs_fetch` is what the respective loader body
would return if entered (`some` decoded value, or `none` for any caught
failure).  The result is `Except.error .typeError` when CPython rejects the
call's arity, i.e. the callee body is never entered and no fetch happens. -/
def load_model (cloud_type : String) (s3_fetch gcs_fetch : Option PyVal) :
    Except PyExn (Option PyVal) :=
  if cloud_type = "s3" then
    if call_binds s3_required s3_defaulted load_model_args then Except.ok s3_fetch
    else Except.error PyExn.typeError
  else
    if call_binds gcs_required gcs_defaulted load_model_args then Except.ok gcs_fetch
    else Except.error PyExn.typeError

/-- The worker's inner retry loop (loader.py:343-352): attempt `i` runs
`model_loader()` with outcome `attempts i` — either an uncaught exception, a
`None` (logged, retried immediately), or a loaded value (loop exits).
`fuel` bounds how many attempts we unroll; `Option.none` means the loop is
still running after `fuel` attempts, `some (Except.error e)` that attempt
raised and the exception escaped the loop, `some (Except.ok v)` that the
loop exited with `result = v`. -/
def retry_load (attempts : Nat → Except PyExn (Option PyVal)) :
    Nat → Option (Except PyExn PyVal)
  | 0 => Option.none
  | fuel + 1 =>
    match attempts 0 with
    | Except.error e => some (Except.error e)
    | Except.ok (some v) => some (Except.ok v)
    | Except.ok Option.none => retry_load (fun i => attempts (i + 1)) fuel

/-- One signal's processing in `result_thread` (loader.py:343-359): run the
retry loop; on exit apply the optional transformer, and the final value is
what `result_queue.put(result)` publishes.  Errors propagate (there is no
`try` in `result_thread`); `Option.none` again means "still retrying". -/
def process_signal (attempts : Nat → Except PyExn (Option PyVal))
    (transformer : Option (PyVal → PyVal)) (fuel : Nat) :
    Option (Except PyExn PyVal) :=
  match retry_load attempts fuel with
  | Option.none => Option.none
  | some (Except.error e) => some (Except.error e)
  | some (Except.ok v) =>
    match transformer with
    | some f => some (Except.ok (f v))
    | Option.none => some (Except.ok v)

/-- C4's failing input, evaluated: for a gcs-configured cache the very first
load attempt raises `TypeError` (the 3-argument call cannot bind
`gcs_json_loader`'s 2 parameters), and the exception escapes the retry loop
instead of being retried — the worker gives up immediately, contradicting
"retries indefinitely, never raises, for both backends". -/
theorem gcs_retry_loop_raises :
    retry_load (fun _ => load_model "gcs" (some (PyVal.int 7)) (some (PyVal.int 7))) 3 =
      some (Except.error PyExn.typeError) := rfl

/-- C10: for every fetch outcome, `load_model` on a gcs cache raises
`TypeError` (2-parameter `gcs_json_loader` called with 3 arguments) without
the fetch result ever mattering, while the same 3-argument call does bind
`s3_json_loader` (the third argument silently occupying the defaulted
`region_name` slot) and returns the loader's outcome; consequently a
gcs-backed worker never publishes a value: for any transformer and any
amount of retrying, `process_signal` never produces a published value. -/
theorem gcs_load_always_type_error :
    ∀ (s3_fetch gcs_fetch : Option PyVal) (tr : Option (PyVal → PyVal)) (fuel : Nat),
      load_model "gcs" s3_fetch gcs_fetch = Except.error PyExn.typeError ∧
      call_binds gcs_required gcs_defaulted load_model_args = false ∧
      load_model "s3" s3_fetch gcs_fetch = Except.ok s3_fetch ∧
      call_binds s3_required s3_defaulted load_model_args = true ∧
      ∀ v : PyVal,
        process_signal (fun _ => load_model "gcs" s3_fetch gcs_fetch) tr fuel ≠
          some (Except.ok v) := by
  intro s3_fetch gcs_fetch tr fuel
  have hload : load_model "gcs" s3_fetch gcs_fetch = Except.error PyExn.typeError := by
    simp [load_model, call_binds, gcs_required, gcs_defaulted, load_model_args]
  have hs3 : load_model "s3" s3_fetch gcs_fetch = Except.ok s3_fetch := by
    simp [load_model, call_binds, s3_required, s3_defaulted, load_model_args]
  refine ⟨hload, by decide, hs3, by decide, ?_⟩
  intro v
  cases fuel with
  | zero => simp [process_signal, retry_load]
  | succ fuel => simp [process_signal, retry_load, hload]

/-- C8: whenever the retry loop exits with a decoded payload `v` and a
transformer `f` is configured, the value published to the result queue is
`f v` — the transformed value, never the raw decoded payload itself. -/
theorem transformer_applied_to_published (attempts : Nat → Except PyExn (Option PyVal))
    (f : PyVal → PyVal) (fuel : Nat) (v : PyVal)
    (h : retry_load attempts fuel = some (Except.ok v)) :
    process_signal attempts (some f) fuel = some (Except.ok (f v)) := by
  simp [process_signal, h]

/-- Doubles an integer payload; other values pass through. -/
def double_int : PyVal → PyVal
  | PyVal.int n => PyVal.int (2 * n)
  | v => v

/-- Witness for C8: a loader that succeeds immediately with `3` and the
doubling transformer publish `6`. -/
theorem transformer_applied_to_published_witness :
    process_signal (fun _ => Except.ok (some (PyVal.int 3))) (some double_int) 1 =
      some (Except.ok (PyVal.int 6)) :=
  transformer_applied_to_published (fun _ => Except.ok (some (PyVal.int 3)))
    double_int 1 (PyVal.int 3) rfl

/-! ## Refresh signal producer (`refresh_thread`, loader.py:316-330)

Each iteration (when not stopped) calls `t.has_expired()` and, if it returns
true, executes `refresh_queue.put(True)` — `queue.Queue.put` with its default
`block=True` on a queue constructed with capacity 10 (loader.py:227), which
waits while the queue is full and never drops the item.  The queue is
modelled as the list of queued items; a step result of `Option.none` models
the producer blocked inside `put` (it neither drops the signal nor proceeds
to the next iteration within this step). -/

def QUEUE_CAPACITY : Nat := 10

/-- `queue.Queue(10).put(x)` with `block=True`: append when below capacity,
otherwise block (`Option.none`). -/
def queue_put_blocking (q : List Bool) (x : Bool) : Option (List Bool) :=
  if q.length < QUEUE_CAPACITY then some (q ++ [x]) else Option.none

/-- One non-stopped iteration of `refresh_thread`'s loop body, returning the
new timer state and queue contents, or `Option.none` when the producer is
blocked in `put`. -/
def refresh_step (t : Timer) (now : Int) (q : List Bool) : Option (Timer × List Bool) :=
  let r := has_expired t now
  if r.1 then (queue_put_blocking q true).map fun q' => (r.2, q')
  else some (r.2, q)

/-- C5 fails on the code: with an expired timer and the signal queue at its
full capacity of 10, the claim predicts the enqueue is dropped and the
producer proceeds with the queue unchanged; but `refresh_queue.put(True)` is
a blocking put, so the producer blocks — the step does not complete, rather
than completing with the queue unchanged. -/
theorem refresh_full_queue_cex :
    (has_expired { start := 0, ttl := 10, ttl_incr := 0 } 5).1 = true ∧
    (List.replicate QUEUE_CAPACITY true).length = QUEUE_CAPACITY ∧
    refresh_step { start := 0, ttl := 10, ttl_incr := 0 } 5 (List.replicate QUEUE_CAPACITY true) =
      Option.none ∧
    refresh_step { start := 0, ttl := 10, ttl_incr := 0 } 5 (List.replicate QUEUE_CAPACITY true) ≠
      some ((has_expired { start := 0, ttl := 10, ttl_incr := 0 } 5).2,
        List.replicate QUEUE_CAPACITY true) := by decide

/-- C5 amended: the enqueue of a refresh signal is blocking, not
signal-dropping: when the timer has expired and the channel holds fewer than
its 10-item capacity the signal is appended and the producer proceeds; when
the channel is full the producer blocks inside `put` until space is
available (and when the timer has not expired nothing is enqueued).  No
enqueue attempt is ever silently discarded. -/
theorem refresh_step_blocking (t : Timer) (now : Int) (q : List Bool) :
    (refresh_step t now q = Option.none ↔
      (has_expired t now).1 = true ∧ QUEUE_CAPACITY ≤ q.length) ∧
    ((has_expired t now).1 = true → q.length < QUEUE_CAPACITY →
      refresh_step t now q = some ((has_expired t now).2, q ++ [true])) ∧
    ((has_expired t now).1 = false → refresh_step t now q = some ((has_expired t now).2, q)) := by
  refine ⟨?_, ?_, ?_⟩
  · by_cases he : (has_expired t now).1 = true
    · by_cases hq : q.length < QUEUE_CAPACITY
      · simp only [refresh_step, he, queue_put_blocking, if_true, if_pos hq, Option.map_some]
        simp [he]
        omega
      · simp only [refresh_step, he, queue_put_blocking, if_true, if_neg hq, Option.map_none]
        simp [he]
        omega
    · simp only [Bool.not_eq_true] at he
      simp [refresh_step, he]
  · intro he hq
    simp [refresh_step, he, queue_put_blocking, hq]
  · intro he
    simp [refresh_step, he]

/-- Witness for the amended C5 at a concrete expired timer: a 10-item queue
blocks the producer, a 9-item queue accepts the signal, and an unexpired
timer enqueues nothing. -/
theorem refresh_step_blocking_witness :
    (refresh_step { start := 0, ttl := 10, ttl_incr := 0 } 5 (List.replicate 10 true) =
        Option.none ↔
      (has_expired { start := 0, ttl := 10, ttl_incr := 0 } 5).1 = true ∧
        QUEUE_CAPACITY ≤ (List.replicate 10 true).length) ∧
    ((has_expired { start := 0, ttl := 10, ttl_incr := 0 } 5).1 = true →
      (List.replicate 10 true).length < QUEUE_CAPACITY →
      refresh_step { start := 0, ttl := 10, ttl_incr := 0 } 5 (List.replicate 10 true) =
        some ((has_expired { start := 0, ttl := 10, ttl_incr := 0 } 5).2,
          List.replicate 10 true ++ [true])) ∧
    ((has_expired { start := 0, ttl := 10, ttl_incr := 0 } 5).1 = false →
      refresh_step { start := 0, ttl := 10, ttl_incr := 0 } 5 (List.replicate 10 true) =
        some ((has_expired { start := 0, ttl := 10, ttl_incr := 0 } 5).2,
          List.replicate 10 true)) :=
  refresh_step_blocking { start := 0, ttl := 10, ttl_incr := 0 } 5 (List.replicate 10 true)

/-! ## Payload decoding (`decode_payload`, loader.py:53-68)

`bz2.decompress` and `json.loads(payload.decode("utf8"))` are external
collaborators, abstracted as functions `bz2_decompress : B → B` and
`json_loads : B → J` over an abstract byte-string type `B` and parse-result
type `J`.  Python string operations are translated exactly:
`path.endswith(suffix)` is the suffix test and `path[:-4]` keeps all but the
last four characters. -/

/-- `str.endswith`. -/
def py_endswith (s suffix : String) : Bool :=
  suffix.data.isSuffixOf s.data

/-- `s[:-n]` for `n ≤ len(s)`. -/
def py_strip_last (s : String) (n : Nat) : String :=
  String.mk (s.data.take (s.data.length - n))

/-- The decoded result: raw bytes, or a parsed JSON value. -/
inductive Payload (B J : Type) where
  | bytes : B → Payload B J
  | json : J → Payload B J
deriving DecidableEq, Repr

/-- `decode_payload(payload, path)` (loader.py:53-68): if the path ends in
".bz2", decompress and strip that suffix; then, if the (possibly stripped)
path ends in ".json", parse; otherwise hand back the bytes. -/
def decode_payload {B J : Type} (bz2_decompress : B → B) (json_loads : B → J)
    (payload : B) (path : String) : Payload B J :=
  let step :=
    if py_endswith path ".bz2" then (bz2_decompress payload, py_strip_last path 4)
    else (payload, path)
  if py_endswith step.2 ".json" then Payload.json (json_loads step.1)
  else Payload.bytes step.1

/-- C6: `decode_payload` follows the suffix rule — a ".bz2" path is
decompressed and the suffix stripped before the ".json" check, a (stripped)
".json" path is parsed, anything else passes through unchanged; in
particular, when decompression inverts compression,
`decode_payload (bz2 (json_bytes), "x.json.bz2")` is the parse of
`json_bytes` and `decode_payload (raw, "x.bin")` is `raw` itself. -/
theorem decode_payload_suffix_rule {B J : Type} (bz2_compress bz2_decompress : B → B)
    (json_loads : B → J) (json_bytes raw : B)
    (hround : ∀ x, bz2_decompress (bz2_compress x) = x) :
    decode_payload bz2_decompress json_loads (bz2_compress json_bytes) "x.json.bz2" =
      Payload.json (json_loads json_bytes) ∧
    decode_payload bz2_decompress json_loads raw "x.bin" = Payload.bytes raw ∧
    (∀ (b : B) (p : String), py_endswith p ".bz2" = true →
      decode_payload bz2_decompress json_loads b p =
        (if py_endswith (py_strip_last p 4) ".json" then
          Payload.json (json_loads (bz2_decompress b))
        else Payload.bytes (bz2_decompress b))) ∧
    (∀ (b : B) (p : String), py_endswith p ".bz2" = false → py_endswith p ".json" = true →
      decode_payload bz2_decompress json_loads b p = Payload.json (json_loads b)) ∧
    (∀ (b : B) (p : String), py_endswith p ".bz2" = false → py_endswith p ".json" = false →
      decode_payload bz2_decompress json_loads b p = Payload.bytes b) := by
  refine ⟨?_, ?_, ?_, ?_, ?_⟩
  · show Payload.json (json_loads (bz2_decompress (bz2_compress json_bytes))) =
      Payload.json (json_loads json_bytes)
    rw [hround]
  · rfl
  · intro b p h
    simp [decode_payload, h]
  · intro b p h1 h2
    simp [decode_payload, h1, h2]
  · intro b p h1 h2
    simp [decode_payload, h1, h2]

/-- Witness for C6 with bytes as `List Nat`, compression prepending a `0`
byte, decompression dropping it, and a trivial parser. -/
theorem decode_payload_suffix_rule_witness :
    decode_payload (fun l : List Nat => l.drop 1) (fun l : List Nat => l)
        ((fun l : List Nat => 0 :: l) [1, 2]) "x.json.bz2" = Payload.json [1, 2] ∧
    decode_payload (fun l : List Nat => l.drop 1) (fun l : List Nat => l) [3] "x.bin" =
      Payload.bytes [3] ∧
    (∀ (b : List Nat) (p : String), py_endswith p ".bz2" = true →
      decode_payload (fun l : List Nat => l.drop 1) (fun l : List Nat => l) b p =
        (if py_endswith (py_strip_last p 4) ".json" then
          Payload.json (b.drop 1)
        else Payload.bytes (b.drop 1))) ∧
    (∀ (b : List Nat) (p : String), py_endswith p ".bz2" = false →
        py_endswith p ".json" = true →
      decode_payload (fun l : List Nat => l.drop 1) (fun l : List Nat => l) b p =
        Payload.json b) ∧
    (∀ (b : List Nat) (p : String), py_endswith p ".bz2" = false →
        py_endswith p ".json" = false →
      decode_payload (fun l : List Nat => l.drop 1) (fun l : List Nat => l) b p =
        Payload.bytes b) :=
  decode_payload_suffix_rule (fun l => 0 :: l) (fun l => l.drop 1) (fun l => l)
    [1, 2] [3] (fun _ => rfl)

/-! ## Path validation (`PATH_RE`, loader.py:28 and `__init__`, loader.py:212-234)

Construction runs `self._path = os.path.normpath(path)` and then
`assert PATH_RE.match(self._path)` with
`PATH_RE = re.compile(r"[^/][a-zA-Z0-9\.\-_/]*[^/]$")`.  Both CPython
behaviours are translated character by character over `List Char`:

* `posixpath.normpath`: split on `'/'`, drop empty and `"."` components,
  resolve `".."` against the accumulated components, re-join, and restore
  up to two leading slashes (`""` normalises to `"."`).
* `PATH_RE.match(s)`: `re.match` anchors at the start; the pattern is one
  character that is not `'/'`, then any run of characters from the allowed
  class (which includes `'/'`), then one more character that is not `'/'`,
  then `$`.  In CPython, `$` matches at the very end of the string or just
  before a trailing `'\n'`. -/

/-- The character class `[a-zA-Z0-9.\-_/]`. -/
def ALLOWED (c : Char) : Bool :=
  c.isAlpha || c.isDigit || c == '.' || c == '-' || c == '_' || c == '/'

/-- Backtracking match of the regex tail `CLASS* [^/] END` against `cs`:
either the star stops and the single non-slash character must be the last
one, or the star consumes the head and matching continues. -/
def star_then_one (p q : Char → Bool) : List Char → Bool
  | [] => false
  | [c] => q c
  | c :: cs => p c && star_then_one p q cs

/-- `PATH_RE` matched from the start with `$` taken as absolute end. -/
def path_re_core (s : List Char) : Bool :=
  match s with
  | [] => false
  | c :: cs => (c != '/') && star_then_one ALLOWED (fun d => d != '/') cs

/-- `PATH_RE.match(s) is not None`: the core match, or — because `$` also
matches just before a trailing newline — the core match on the string with
its trailing `'\n'` removed. -/
def path_re_match (s : List Char) : Bool :=
  path_re_core s || ((s.getLast? == some '\n') && path_re_core s.dropLast)

/-- `str.split('/')`. -/
def split_slash : List Char → List (List Char)
  | [] => [[]]
  | c :: cs =>
    match split_slash cs with
    | [] => [[c]]
    | h :: t => if c = '/' then [] :: h :: t else (c :: h) :: t

/-- `'/'.join(...)`. -/
def join_slash : List (List Char) → List Char
  | [] => []
  | [x] => x
  | x :: xs => x ++ '/' :: join_slash xs

/-- One iteration of `posixpath.normpath`'s component loop: skip empty and
`"."`; append a component unless it is `".."` that can cancel (no leading
slashes and nothing accumulated keeps a `".."`, as does a trailing `".."`
already accumulated); a cancelling `".."` pops the last component. -/
def normpath_comp (islashes : Nat) (acc : List (List Char)) (comp : List Char) :
    List (List Char) :=
  if comp = [] ∨ comp = ['.'] then acc
  else if comp ≠ ['.', '.'] ∨ (islashes = 0 ∧ acc = []) ∨
      (acc ≠ [] ∧ acc.getLast? = some ['.', '.']) then
    acc ++ [comp]
  else if acc ≠ [] then acc.dropLast
  else acc

/-- `posixpath.normpath` (what `os.path.normpath` is on the POSIX platforms
this module targets). -/
def normpath (p : List Char) : List Char :=
  if p = [] then ['.']
  else
    let islashes : Nat :=
      if p.take 2 = ['/', '/'] ∧ p.take 3 ≠ ['/', '/', '/'] then 2
      else if p.take 1 = ['/'] then 1 else 0
    let comps := split_slash p
    let prefixed := List.replicate islashes '/' ++ join_slash (comps.foldl (normpath_comp islashes) [])
    if prefixed = [] then ['.'] else prefixed

/-- Construction-time path acceptance (loader.py:214 and 234): normalise,
then require a `PATH_RE` match. -/
def path_ok (p : List Char) : Bool :=
  path_re_match (normpath p)

theorem star_then_one_iff (p q : Char → Bool) :
    ∀ cs : List Char, star_then_one p q cs = true ↔
      ∃ mid c, cs = mid ++ [c] ∧ mid.all p = true ∧ q c = true
  | [] => by
    simp only [star_then_one]
    constructor
    · intro h; exact absurd h (by simp)
    · rintro ⟨mid, c, h, -, -⟩
      exact absurd h.symm (by simp)
  | [c] => by
    simp only [star_then_one]
    constructor
    · intro h
      exact ⟨[], c, rfl, rfl, h⟩
    · rintro ⟨mid, c', h, hall, hq⟩
      rcases mid with - | ⟨m, ms⟩
      · simp only [List.nil_append, List.cons.injEq] at h
        rw [h.1]; exact hq
      · simp only [List.cons_append, List.cons.injEq] at h
        exact absurd h.2.symm (by simp)
  | a :: b :: cs => by
    have ih := star_then_one_iff p q (b :: cs)
    simp only [star_then_one, Bool.and_eq_true, ih]
    constructor
    · rintro ⟨hpa, mid, c, heq, hall, hq⟩
      refine ⟨a :: mid, c, by rw [heq]; rfl, ?_, hq⟩
      simp [List.all_cons, hpa, hall]
    · rintro ⟨mid, c, heq, hall, hq⟩
      rcases mid with - | ⟨m, ms⟩
      · simp only [List.nil_append, List.cons.injEq] at heq
        exact absurd heq.2.symm (by simp)
      · simp only [List.cons_append, List.cons.injEq] at heq
        obtain ⟨rfl, heq2⟩ := heq
        simp only [List.all_cons, Bool.and_eq_true] at hall
        exact ⟨hall.1, ms, c, heq2, hall.2, hq⟩

theorem path_re_core_iff (s : List Char) :
    path_re_core s = true ↔
      ∃ c₀ mid c₁, s = c₀ :: (mid ++ [c₁]) ∧ c₀ ≠ '/' ∧ c₁ ≠ '/' ∧
        mid.all ALLOWED = true := by
  cases s with
  | nil =>
    simp only [path_re_core]
    constructor
    · intro h; exact absurd h (by simp)
    · rintro ⟨c₀, mid, c₁, h, -⟩
      exact absurd h.symm (by simp)
  | cons c cs =>
    simp only [path_re_core, Bool.and_eq_true, bne_iff_ne, star_then_one_iff]
    constructor
    · rintro ⟨hc, mid, c₁, rfl, hall, hq⟩
      exact ⟨c, mid, c₁, rfl, hc, by simpa using hq, hall⟩
    · rintro ⟨c₀, mid, c₁, heq, h0, h1, hall⟩
      simp only [List.cons.injEq] at heq
      obtain ⟨rfl, rfl⟩ := heq
      exact ⟨h0, mid, c₁, rfl, hall, by simpa using h1⟩

theorem path_re_newline_iff (s : List Char) :
    (s.getLast? = some '\n' ∧ path_re_core s.dropLast = true) ↔
      ∃ c₀ mid c₁, s = c₀ :: (mid ++ [c₁, '\n']) ∧ c₀ ≠ '/' ∧ c₁ ≠ '/' ∧
        mid.all ALLOWED = true := by
  constructor
  · rintro ⟨hlast, hcore⟩
    rw [path_re_core_iff] at hcore
    obtain ⟨c₀, mid, c₁, hdl, h0, h1, hall⟩ := hcore
    have hne : s ≠ [] := by rintro rfl; simp at hlast
    have hs : s.dropLast ++ [s.getLast hne] = s := List.dropLast_append_getLast hne
    have hlast' : s.getLast hne = '\n' := by
      rw [List.getLast?_eq_getLast s hne] at hlast
      exact Option.some_injective _ hlast
    refine ⟨c₀, mid, c₁, ?_, h0, h1, hall⟩
    rw [← hs, hdl, hlast']
    simp
  · rintro ⟨c₀, mid, c₁, rfl, h0, h1, hall⟩
    have hsplit : c₀ :: (mid ++ [c₁, '\n']) = (c₀ :: (mid ++ [c₁])) ++ ['\n'] := by simp
    constructor
    · rw [hsplit, List.getLast?_concat]
    · rw [hsplit, List.dropLast_concat, path_re_core_iff]
      exact ⟨c₀, mid, c₁, rfl, h0, h1, hall⟩

/-- C7 fails on the code, three separate ways.  The single-character path
`"a"` is already normalised, non-empty, made only of allowed characters and
slash-free, yet `PATH_RE` — which forces at least two characters — rejects
it, so construction fails.  The path `"ab!"` contains `'!'`, a character
outside the allowed set, yet is accepted: the first and last regex atoms are
`[^/]`, which admits any non-slash character.  The path `"ab/"` has a
trailing slash, yet is accepted because `os.path.normpath` strips the
trailing slash before the regex runs. -/
theorem path_validation_cex :
    normpath "a".data = "a".data ∧ path_ok "a".data = false ∧
    path_ok "ab!".data = true ∧
    normpath "ab/".data = "ab".data ∧ path_ok "ab/".data = true := by decide

/-- C7 amended: construction accepts exactly the paths whose normalised form
is at least two characters long, starts and ends with any non-slash
character (not necessarily one from the allowed set), and has all of its
interior characters in `[a-zA-Z0-9.\-_/]` — allowing additionally the same
shape followed by one trailing newline, which CPython's `$` tolerates.
Single-character paths are rejected even when valid per the spec, and a
trailing slash is removed by normalisation before validation (so only a
leading slash is rejected as such). -/
theorem path_validation_characterization (p : List Char) :
    path_ok p = true ↔
      ((∃ c₀ mid c₁, normpath p = c₀ :: (mid ++ [c₁]) ∧ c₀ ≠ '/' ∧ c₁ ≠ '/' ∧
          mid.all ALLOWED = true) ∨
       (∃ c₀ mid c₁, normpath p = c₀ :: (mid ++ [c₁, '\n']) ∧ c₀ ≠ '/' ∧ c₁ ≠ '/' ∧
          mid.all ALLOWED = true)) := by
  unfold path_ok path_re_match
  rw [Bool.or_eq_true, Bool.and_eq_true, path_re_core_iff]
  constructor
  · rintro (h | ⟨hlast, hcore⟩)
    · exact Or.inl h
    · exact Or.inr ((path_re_newline_iff (normpath p)).1 ⟨by simpa using hlast, hcore⟩)
  · rintro (h | h)
    · exact Or.inl h
    · obtain ⟨hlast, hcore⟩ := (path_re_newline_iff (normpath p)).2 h
      exact Or.inr ⟨by simpa using hlast, hcore⟩
